import Mathlib

/-!
# GitPaste upload client — shallow embedding and verification

This file embeds the GitPaste Obsidian plugin's GitHub asset-upload client
(`src/lib/github.ts` and its variants, plus the plugin event layer) as
executable Lean definitions and proves properties of the embedding.

Modelling conventions:

* Bytes are `Nat` values; JavaScript strings are turned into bytes with a
  UTF-8 encoder (`encodeStr`), matching `Buffer.from(s)` / `TextEncoder`.
* Network traffic is modelled by an `Oracle` supplying the response of each
  endpoint, and each run produces the list of network calls it issued
  (`NetEvent`), so "no further network calls" is a statement about traces.
* Obsidian's `requestUrl` helper throws on any HTTP status `>= 400` unless
  called with `throw: false` (documented default; the source itself passes
  `throw: false` in one call).  Calls without that flag are therefore
  modelled as failing before any in-code status check when the oracle
  status is `>= 400`.
* `mime.lookup` (npm `mime-types`) is modelled on the extensions this plugin
  handles by a finite lowercase table keyed by the extension without its
  leading dot; `path.extname` (Node) is modelled on POSIX paths.
* JavaScript truthiness on the cached numeric repository id
  (`if (this.repoId)`) is modelled exactly: `0`, `null` and `undefined` are
  falsy.  An `undefined` id (JSON without an `id` field) later makes
  `this.repoId!.toString()` raise a `TypeError`; the model surfaces that
  path as `GPError.typeErrorUndefinedRepoId`.
-/

/-- UTF-8 encoding of one character, as `Buffer.from` / `TextEncoder` emit it. -/
def utf8Char (c : Char) : List Nat :=
  let n := c.toNat
  if n < 128 then [n]
  else if n < 2048 then [192 + n / 64, 128 + n % 64]
  else if n < 65536 then [224 + n / 4096, 128 + (n / 64) % 64, 128 + n % 64]
  else [240 + n / 262144, 128 + (n / 4096) % 64, 128 + (n / 64) % 64, 128 + n % 64]

/-- UTF-8 encoding of a JavaScript string as a byte list. -/
def encodeStr (s : String) : List Nat :=
  s.data.flatMap utf8Char

theorem encodeStr_append (a b : String) :
    encodeStr (a ++ b) = encodeStr a ++ encodeStr b := by
  simp [encodeStr, String.data_append, List.flatMap_append]

/-! ## Data model (`src/lib/github.ts` interfaces) -/

/-- `UploadPolicy.asset` from `src/lib/github.ts`. -/
structure Asset where
  id : Nat
  name : String
  size : Nat
  content_type : String
  href : String
  original_name : String
deriving Repr, DecidableEq

/-- The `UploadPolicy` interface from `src/lib/github.ts`.  The `form`
record keeps its JSON insertion order, so it is an ordered association
list; the untyped `header` field is not used by any code path. -/
structure UploadPolicy where
  upload_url : String
  upload_authenticity_token : String
  asset_upload_url : String
  asset_upload_authenticity_token : String
  asset : Asset
  form : List (String × String)
  same_origin : Bool
deriving Repr, DecidableEq

/-- The `UploadResult` interface from `src/lib/github.ts`. -/
structure UploadResult where
  githubLink : String
  awsLink : String
deriving Repr, DecidableEq

/-- Mutable fields of the `GitHub` class (`repo`, `repoId`, `userSession`);
the axios instance holds no observable state beyond its fixed headers. -/
structure GitHub where
  repo : String
  repoId : Option Nat
  userSession : String
deriving Repr, DecidableEq

/-- `new GitHub(userSession, repo)` from `src/lib/github.ts:40-43`:
`this.repo = repo || "cli/cli"`, and the repo id `212613049` is pre-known
when the repo is the default `cli/cli`. -/
def GitHub.make (userSession : String) (repo : String) : GitHub :=
  let r := if repo = "" then "cli/cli" else repo
  { repo := r
    repoId := if r = "cli/cli" then some 212613049 else none
    userSession := userSession }

/-- One run's network responses: what each endpoint would answer. -/
structure Oracle where
  /-- Status of `GET https://api.github.com/repos/{repo}`; `requestUrl`
  throws (and the `catch` wraps) when it is `>= 400`. -/
  repoStatus : Nat
  /-- The `id` field of the repo metadata JSON, if present. -/
  repoJsonId : Option Nat
  /-- Status of `POST /upload/policies/assets`. -/
  policyStatus : Nat
  /-- Parsed policy JSON returned on success. -/
  policyJson : UploadPolicy
  /-- Status of the multipart POST to `policy.upload_url`. -/
  uploadStatus : Nat
  /-- `Location` response header of the multipart POST, if present. -/
  uploadLocation : Option String
  /-- Status of the completion `PUT` to `policy.asset_upload_url`. -/
  completionStatus : Nat
deriving Repr

/-- Network calls a run can issue, in order. The policy POST records the
form body it sends. -/
inductive NetEvent where
  | repoGet
  | policyPost (body : List (String × String))
  | multipartPost
  | completionPut
deriving Repr, DecidableEq

/-- Distinguishable failure outcomes of the client, by source code path. -/
inductive GPError where
  /-- `"Failed to get repo ID: ..."` (`getRepoId` catch). -/
  | repoResolution
  /-- `TypeError` raised by `this.repoId!.toString()` when the cached id is
  `undefined`/`null` (no `id` field in the metadata JSON). -/
  | typeErrorUndefinedRepoId
  /-- Policy status `!= 201` (and `< 400`): the session-expired notice is
  shown and the wrapped error thrown (`src/lib/github.ts:131-134`). -/
  | sessionExpired
  /-- The policy `requestUrl` call itself threw (status `>= 400` or
  transport failure): generic `"Failed to get upload policy"` wrap. -/
  | policyFailed
  /-- `"Upload failed with status: s"` (`src/lib/github.ts:199-202`). -/
  | uploadFailed (status : Nat)
  /-- The multipart `requestUrl` call itself threw (status `>= 400`):
  generic `"Failed to upload file"` wrap without the status check firing. -/
  | uploadRequestFailed
  /-- `"Failed to mark upload as complete: ..."`. -/
  | completionFailed
deriving Repr, DecidableEq

/-! ## Content-type inference (`path.extname` + `mime.lookup`) -/

/-- Characters of the POSIX basename: everything after the last `/`. -/
def basenameChars (cs : List Char) : List Char :=
  (cs.reverse.takeWhile (fun c => c != '/')).reverse

/-- Node's `path.extname`: the substring of the basename from its last dot,
except that a dot at position 0 (hidden files), a dotless name, `"."` and
`".."` give the empty string. -/
def extname (name : String) : String :=
  let b := basenameChars name.data
  if b = ['.', '.'] then ""
  else
    let suffixLen := (b.reverse.takeWhile (fun c => c != '.')).length
    if suffixLen = b.length then ""
    else
      let dotIdx := b.length - suffixLen - 1
      if dotIdx = 0 then "" else String.mk (b.drop dotIdx)

/-- ASCII lowercasing of one character (`toLowerCase` on extensions). -/
def lowerChar (c : Char) : Char :=
  if 65 ≤ c.toNat ∧ c.toNat ≤ 90 then Char.ofNat (c.toNat + 32) else c

/-- The static extension-to-MIME table of the `mime-types` package,
restricted to the image/file types this plugin handles; keys are lowercase
extensions without a leading dot. -/
def mimeTable : List (String × String) :=
  [("png", "image/png"), ("jpg", "image/jpeg"), ("jpeg", "image/jpeg"),
   ("gif", "image/gif"), ("bmp", "image/bmp"), ("webp", "image/webp"),
   ("svg", "image/svg+xml"), ("txt", "text/plain"), ("pdf", "application/pdf")]

/-- `mime.lookup` applied to a `path.extname` result: strips the leading
dot, lowercases, and looks the extension up in the static table; a missing
dot or unknown extension yields `false` (here `none`). -/
def mimeLookup (ext : String) : Option String :=
  match ext.data with
  | '.' :: rest => mimeTable.lookup (String.mk (rest.map lowerChar))
  | _ => none

/-- `mime.lookup(path.extname(name)) || "application/octet-stream"`
(`src/lib/github.ts:170-171`). -/
def contentTypeFor (name : String) : String :=
  match mimeLookup (extname name) with
  | some t => t
  | none => "application/octet-stream"

/-! ## The upload orchestrator (`src/lib/github.ts:85-216`) -/

/-- JavaScript truthiness of `this.repoId`: `null`/`undefined` and `0` are
falsy. -/
def repoIdTruthy (c : GitHub) : Bool :=
  match c.repoId with
  | some n => n != 0
  | none => false

/-- `getRepoId` (`src/lib/github.ts:85-99`): return the cached id if
truthy, otherwise `GET` the repo metadata; a thrown request is wrapped as
`"Failed to get repo ID"`, and on success `this.repoId = data.id` is
assigned without checking that the `id` field exists. -/
def getRepoId (c : GitHub) (o : Oracle) :
    Except GPError (Option Nat) × GitHub × List NetEvent :=
  if repoIdTruthy c then (Except.ok c.repoId, c, [])
  else if 400 ≤ o.repoStatus then
    (Except.error GPError.repoResolution, c, [NetEvent.repoGet])
  else
    (Except.ok o.repoJsonId, { c with repoId := o.repoJsonId }, [NetEvent.repoGet])

/-- The `URLSearchParams` body of the policy request
(`src/lib/github.ts:110-114`), in append order. -/
def policyBody (repoId : Nat) (name : String) (size : Nat) (contentType : String) :
    List (String × String) :=
  [("repository_id", toString repoId), ("name", name),
   ("size", toString size), ("content_type", contentType)]

/-- `getPolicy` (`src/lib/github.ts:101-141`): resolve the repo id if not
truthy (errors propagate unwrapped, before the `try`), build the form body
with `this.repoId!.toString()` (a `TypeError` when the id is absent), then
POST; a status `>= 400` makes `requestUrl` throw (generic wrap), a status
`!= 201` fires the session-expired notice and throw, and `201` yields the
parsed policy JSON. -/
def getPolicy (c : GitHub) (o : Oracle) (name : String) (size : Nat)
    (contentType : String) :
    Except GPError UploadPolicy × GitHub × List NetEvent :=
  match (if repoIdTruthy c then (Except.ok c.repoId, c, ([] : List NetEvent))
         else getRepoId c o) with
  | (Except.error e, c', ev) => (Except.error e, c', ev)
  | (Except.ok _, c', ev) =>
    match c'.repoId with
    | none => (Except.error GPError.typeErrorUndefinedRepoId, c', ev)
    | some rid =>
      let body := policyBody rid name size contentType
      if 400 ≤ o.policyStatus then
        (Except.error GPError.policyFailed, c', ev ++ [NetEvent.policyPost body])
      else if o.policyStatus ≠ 201 then
        (Except.error GPError.sessionExpired, c', ev ++ [NetEvent.policyPost body])
      else
        (Except.ok o.policyJson, c', ev ++ [NetEvent.policyPost body])

/-- `response.headers.location || ""` (`src/lib/github.ts:203`): an absent
or empty header becomes the empty string. -/
def locationOr (l : Option String) : String :=
  match l with
  | some s => if s = "" then "" else s
  | none => ""

/-- `upload` (`src/lib/github.ts:165-216`): infer the content type, fetch a
fresh policy, POST the multipart body built from `policy.form` and the file
to `policy.upload_url`; `requestUrl` throws on status `>= 400` (generic
wrap), a status outside `[201, 204]` throws `"Upload failed with status"`,
otherwise the `Location` header is captured, the completion `PUT` is
issued, and `{githubLink: policy.asset.href, awsLink}` is returned. -/
def upload (c : GitHub) (o : Oracle) (name : String) (size : Nat)
    (file : List Nat) :
    Except GPError UploadResult × GitHub × List NetEvent :=
  match getPolicy c o name size (contentTypeFor name) with
  | (Except.error e, c', ev) => (Except.error e, c', ev)
  | (Except.ok policy, c', ev) =>
    if 400 ≤ o.uploadStatus then
      (Except.error GPError.uploadRequestFailed, c', ev ++ [NetEvent.multipartPost])
    else if o.uploadStatus ∈ [201, 204] then
      let awsLink := locationOr o.uploadLocation
      if 400 ≤ o.completionStatus then
        (Except.error GPError.completionFailed, c',
          ev ++ [NetEvent.multipartPost, NetEvent.completionPut])
      else
        (Except.ok { githubLink := policy.asset.href, awsLink := awsLink }, c',
          ev ++ [NetEvent.multipartPost, NetEvent.completionPut])
    else
      (Except.error (GPError.uploadFailed o.uploadStatus), c',
        ev ++ [NetEvent.multipartPost])

/-- The repo-id step of a run succeeds with a usable id: the id is already
cached and truthy, or the metadata request succeeds and its JSON has an
`id` field. -/
def repoStepOk (c : GitHub) (o : Oracle) : Prop :=
  repoIdTruthy c = true ∨ (o.repoStatus < 400 ∧ o.repoJsonId.isSome = true)

instance (c : GitHub) (o : Oracle) : Decidable (repoStepOk c o) := by
  unfold repoStepOk; infer_instance

/-- Recognizer for policy-request events in a trace. -/
def isPolicyPost : NetEvent → Bool
  | NetEvent.policyPost _ => true
  | _ => false

/-! ## Multipart payload builder (`src/lib/github.ts:412-454`)

The axios variant of `upload` constructs the multipart body by pushing
`Buffer.from(text)` parts and the raw file buffer into an array and copying
them back-to-back into one `Uint8Array`. -/

/-- One entry of the `parts` array: a text chunk (later UTF-8 encoded) or
the raw file bytes. -/
inductive BodyPart where
  | text (s : String)
  | bytes (b : List Nat)
deriving Repr, DecidableEq

/-- Bytes of one part: texts via UTF-8, the file buffer verbatim. -/
def partBytes : BodyPart → List Nat
  | BodyPart.text s => encodeStr s
  | BodyPart.bytes b => b

/-- The `parts` array as pushed by `src/lib/github.ts:417-439`: one text
part per `policy.form` entry in order, the file-header text part, the raw
file buffer, and the closing text part. -/
def multipartParts (boundary : String) (form : List (String × String))
    (name contentType : String) (fileBytes : List Nat) : List BodyPart :=
  (form.map (fun kv => BodyPart.text
    ("--" ++ boundary ++ "\r\n" ++
     "Content-Disposition: form-data; name=\"" ++ kv.1 ++ "\"\r\n\r\n" ++
     (kv.2 ++ "\r\n"))))
  ++ [BodyPart.text
        ("--" ++ boundary ++ "\r\n" ++
         "Content-Disposition: form-data; name=\"file\"; filename=\"" ++ name ++ "\"\r\n" ++
         "Content-Type: " ++ contentType ++ "\r\n\r\n"),
      BodyPart.bytes fileBytes,
      BodyPart.text ("\r\n--" ++ boundary ++ "--\r\n")]

/-- The single body buffer assembled at `src/lib/github.ts:441-454`:
the parts' bytes copied back-to-back. -/
def multipartBody (boundary : String) (form : List (String × String))
    (name contentType : String) (fileBytes : List Nat) : List Nat :=
  ((multipartParts boundary form name contentType fileBytes).map partBytes).flatten

/-! Spec-side multipart format, stated independently from the code.
`specMultipartBody` transcribes the documented wire format: for each field
`--boundary` CRLF `Content-Disposition: form-data; name="<field>"` CRLF CRLF
`<value>` CRLF; then one file part `--boundary` CRLF
`Content-Disposition: form-data; name="file"; filename="<name>"` CRLF
`Content-Type: <type>` CRLF CRLF `<raw bytes>` CRLF; finally
`--boundary--` CRLF. -/

/-- The CRLF byte pair. -/
def crlf : List Nat := [13, 10]

/-- Spec wording: one form-field part. -/
def specFieldPart (boundary field value : String) : List Nat :=
  encodeStr ("--" ++ boundary) ++ crlf
  ++ encodeStr ("Content-Disposition: form-data; name=\"" ++ field ++ "\"")
  ++ crlf ++ crlf
  ++ encodeStr value ++ crlf

/-- Spec wording: the file part. -/
def specFilePart (boundary name contentType : String) (fileBytes : List Nat) :
    List Nat :=
  encodeStr ("--" ++ boundary) ++ crlf
  ++ encodeStr ("Content-Disposition: form-data; name=\"file\"; filename=\"" ++ name ++ "\"")
  ++ crlf
  ++ encodeStr ("Content-Type: " ++ contentType)
  ++ crlf ++ crlf
  ++ fileBytes ++ crlf

/-- Spec wording: the closing delimiter. -/
def specClose (boundary : String) : List Nat :=
  encodeStr ("--" ++ boundary ++ "--") ++ crlf

/-- Spec wording: the whole multipart body, fields in mapping order, then
the file part, then the close. -/
def specMultipartBody (boundary : String) (form : List (String × String))
    (name contentType : String) (fileBytes : List Nat) : List Nat :=
  (form.map (fun kv => specFieldPart boundary kv.1 kv.2)).flatten
  ++ specFilePart boundary name contentType fileBytes
  ++ specClose boundary

/-! ## Plugin event layer (`src/unnamed/part_002`) -/

/-- The `GitPasteSettings` interface of the plugin. -/
structure GitPasteSettings where
  githubSession : String
  deleteLocalImage : Bool
  showNotices : Bool
  enableLogging : Bool
  logFilePath : String
deriving Repr, DecidableEq

/-- Editor-side context `handleImagePaste` observes: whether a markdown
view is active and whether the cursor line holds the local `![[name]]`
embed. -/
structure EditorCtx where
  hasMarkdownView : Bool
  lineMatchesLocalLink : Bool
deriving Repr, DecidableEq

/-- Observable side effects of the plugin layer. -/
inductive PluginEvent where
  | net (e : NetEvent)
  | notice (msg : String)
  /-- Notice shown on a caught upload error (its text embeds the error). -/
  | errorNotice
  /-- `editor.setLine` replacing the local embed with the GitHub link. -/
  | editorSetLine
  /-- `editor.replaceRange` inserting the GitHub link at the cursor. -/
  | editorInsert
  /-- An append to the log note via `logImageURL`. -/
  | logWrite
  /-- `this.app.fileManager.trashFile(file)`. -/
  | trashFile
deriving Repr, DecidableEq

/-- `showNotice` (`src/unnamed/part_002:147-151`): emits only when the
`showNotices` setting is on. -/
def showNotice (s : GitPasteSettings) (msg : String) : List PluginEvent :=
  if s.showNotices then [PluginEvent.notice msg] else []

/-- `handleImagePaste` (`src/unnamed/part_002:77-130`): bail out with a
notice when no session is configured; otherwise construct a fresh `GitHub`
client with the default repo and upload.  On success the editor line is
replaced or the link inserted (when a markdown view is active) and the URL
optionally logged; a thrown upload error is caught, logged to console, and
reported as a notice — it is not re-thrown. -/
def handleImagePaste (s : GitPasteSettings) (o : Oracle) (ed : EditorCtx)
    (fileName : String) (fileSize : Nat) (fileBytes : List Nat) :
    List PluginEvent :=
  if s.githubSession.length < 1 then
    showNotice s "GitPaste: Please Add GitHub Session to use this."
  else
    let gh := GitHub.make s.githubSession "cli/cli"
    match upload gh o fileName fileSize fileBytes with
    | (Except.ok _, _, net) =>
      net.map PluginEvent.net
      ++ (if ed.hasMarkdownView then
            if ed.lineMatchesLocalLink then
              PluginEvent.editorSetLine ::
                showNotice s "Replaced local image link with GitHub URL."
            else
              PluginEvent.editorInsert ::
                showNotice s "Inserted GitHub image link."
          else [])
      ++ (if s.enableLogging then [PluginEvent.logWrite] else [])
    | (Except.error _, _, net) =>
      net.map PluginEvent.net ++ [PluginEvent.errorNotice]

/-- The image extensions of the vault-create guard
(`file.extension.match(/png|jpg|jpeg|gif|bmp/i)`), modelled on exact
lowercase extensions. -/
def isImageExt (ext : String) : Bool :=
  ext ∈ ["png", "jpg", "jpeg", "gif", "bmp"]

/-- The `vault.on("create")` handler (`src/unnamed/part_002:58-74`): for an
image file, read it, run `handleImagePaste`, and afterwards — regardless of
how the upload went, since `handleImagePaste` swallows its errors — trash
the local file when the `deleteLocalImage` setting is on. -/
def onVaultCreate (s : GitPasteSettings) (o : Oracle) (ed : EditorCtx)
    (fileName fileExt : String) (fileSize : Nat) (fileBytes : List Nat) :
    List PluginEvent :=
  if isImageExt fileExt then
    handleImagePaste s o ed fileName fileSize fileBytes
    ++ (if s.deleteLocalImage then
          PluginEvent.trashFile :: showNotice s "Local Image is trashed"
        else [])
  else []

/-! ## Run characterization -/

/-- The numeric repo id a run uses in the policy request: the truthy cached
id, else the fetched JSON id (defaulting only on unreachable branches). -/
def ridOf (c : GitHub) (o : Oracle) : Nat :=
  (if repoIdTruthy c then c.repoId else o.repoJsonId).getD 0

/-- Client state after the repo-id step. -/
def stateAfterRepo (c : GitHub) (o : Oracle) : GitHub :=
  if repoIdTruthy c then c else { c with repoId := o.repoJsonId }

/-- Network events of the repo-id step. -/
def repoEvents (c : GitHub) (o : Oracle) : List NetEvent :=
  if repoIdTruthy c then [] else [NetEvent.repoGet]

/-- Outcome of a full `upload` run once the repo-id step went through. -/
def uploadOutcome (o : Oracle) : Except GPError UploadResult :=
  if 400 ≤ o.policyStatus then Except.error GPError.policyFailed
  else if o.policyStatus ≠ 201 then Except.error GPError.sessionExpired
  else if 400 ≤ o.uploadStatus then Except.error GPError.uploadRequestFailed
  else if o.uploadStatus ∈ [201, 204] then
    if 400 ≤ o.completionStatus then Except.error GPError.completionFailed
    else Except.ok { githubLink := o.policyJson.asset.href
                     awsLink := locationOr o.uploadLocation }
  else Except.error (GPError.uploadFailed o.uploadStatus)

/-- Events issued after the policy POST in a full `upload` run. -/
def uploadTail (o : Oracle) : List NetEvent :=
  if 400 ≤ o.policyStatus then []
  else if o.policyStatus ≠ 201 then []
  else if 400 ≤ o.uploadStatus then [NetEvent.multipartPost]
  else if o.uploadStatus ∈ [201, 204] then
    [NetEvent.multipartPost, NetEvent.completionPut]
  else [NetEvent.multipartPost]

theorem repoIdTruthy_iff (c : GitHub) :
    repoIdTruthy c = true ↔ ∃ n, c.repoId = some n ∧ n ≠ 0 := by
  unfold repoIdTruthy
  cases h : c.repoId <;> simp [h]

theorem getPolicy_run (c : GitHub) (o : Oracle) (name : String) (size : Nat)
    (ct : String) (h : repoStepOk c o) :
    getPolicy c o name size ct =
      (if 400 ≤ o.policyStatus then Except.error GPError.policyFailed
       else if o.policyStatus ≠ 201 then Except.error GPError.sessionExpired
       else Except.ok o.policyJson,
       stateAfterRepo c o,
       repoEvents c o ++ [NetEvent.policyPost (policyBody (ridOf c o) name size ct)]) := by
  by_cases hT : repoIdTruthy c = true
  · obtain ⟨n, hn, hnz⟩ := (repoIdTruthy_iff c).mp hT
    unfold getPolicy stateAfterRepo repoEvents ridOf
    simp only [hT, if_true, hn]
    split_ifs <;> simp
  · have hT' : repoIdTruthy c = false := by
      revert hT; cases repoIdTruthy c <;> simp
    rcases h with h | ⟨hs, hid⟩
    · exact absurd h hT
    obtain ⟨m, hm⟩ := Option.isSome_iff_exists.mp hid
    unfold getPolicy getRepoId stateAfterRepo repoEvents ridOf
    simp only [hT', Bool.false_eq_true, if_false, Nat.not_le.mpr hs, hm]
    split_ifs <;> simp

theorem upload_run (c : GitHub) (o : Oracle) (name : String) (size : Nat)
    (fb : List Nat) (h : repoStepOk c o) :
    upload c o name size fb =
      (uploadOutcome o, stateAfterRepo c o,
       repoEvents c o
         ++ [NetEvent.policyPost (policyBody (ridOf c o) name size (contentTypeFor name))]
         ++ uploadTail o) := by
  unfold upload uploadOutcome uploadTail
  rw [getPolicy_run c o name size (contentTypeFor name) h]
  split_ifs <;> simp_all

theorem policyPost_not_mem_repoEvents (c : GitHub) (o : Oracle)
    (b : List (String × String)) : NetEvent.policyPost b ∉ repoEvents c o := by
  unfold repoEvents; split <;> simp

theorem multipartPost_not_mem_repoEvents (c : GitHub) (o : Oracle) :
    NetEvent.multipartPost ∉ repoEvents c o := by
  unfold repoEvents; split <;> simp

theorem completionPut_not_mem_repoEvents (c : GitHub) (o : Oracle) :
    NetEvent.completionPut ∉ repoEvents c o := by
  unfold repoEvents; split <;> simp

theorem policyPost_not_mem_uploadTail (o : Oracle) (b : List (String × String)) :
    NetEvent.policyPost b ∉ uploadTail o := by
  unfold uploadTail; split_ifs <;> simp

theorem countP_policyPost_repoEvents (c : GitHub) (o : Oracle) :
    (repoEvents c o).countP isPolicyPost = 0 := by
  unfold repoEvents; split <;> simp [isPolicyPost]

theorem countP_policyPost_uploadTail (o : Oracle) :
    (uploadTail o).countP isPolicyPost = 0 := by
  unfold uploadTail; split_ifs <;> simp [isPolicyPost]

/-! ## Concrete fixtures for witnesses and counterexamples -/

/-- A concrete policy as the spec's mocked-success scenario describes it
(`asset.href = "https://x/assets/1"`). -/
def polFix : UploadPolicy :=
  { upload_url := "https://s3.example/bucket"
    upload_authenticity_token := "t1"
    asset_upload_url := "/upload/assets/1"
    asset_upload_authenticity_token := "t2"
    asset := { id := 1, name := "a.png", size := 10, content_type := "image/png"
               href := "https://x/assets/1", original_name := "a.png" }
    form := [("key", "v1"), ("acl", "private")]
    same_origin := false }

/-- All-success responses: policy 201, upload 201 with
`Location: https://s3/y`, completion 200. -/
def oracleFix : Oracle :=
  { repoStatus := 200, repoJsonId := some 5, policyStatus := 201
    policyJson := polFix, uploadStatus := 201
    uploadLocation := some "https://s3/y", completionStatus := 200 }

/-- A client on the default repository. -/
def clientFix : GitHub := GitHub.make "sess" "cli/cli"

/-- A client on a non-default repository (no pre-known id). -/
def clientOther : GitHub := GitHub.make "sess" "owner/repo"

/-! ## Claims -/

/-- C1: for every upload call in which all network steps succeed — the
policy request returns 201 with policy `o.policyJson`, the multipart POST
returns 201 or 204 with `Location` header `L`, and the completion PUT
succeeds — `upload(name, size, file)` returns exactly the pair
`{githubLink = policy.asset.href, awsLink = L}`. -/
theorem claim1_upload_success_pair (c : GitHub) (o : Oracle) (name : String)
    (size : Nat) (fb : List Nat) (L : String)
    (hrepo : repoStepOk c o) (hpol : o.policyStatus = 201)
    (hup : o.uploadStatus ∈ [201, 204]) (hloc : o.uploadLocation = some L)
    (hcomp : o.completionStatus < 400) :
    (upload c o name size fb).1 =
      Except.ok { githubLink := o.policyJson.asset.href, awsLink := L } := by
  have h4 : ¬ 400 ≤ o.uploadStatus := by
    rcases List.mem_cons.mp hup with h | h
    · omega
    · simp only [List.mem_singleton] at h; omega
  rw [upload_run c o name size fb hrepo]
  unfold uploadOutcome
  simp only [hpol, h4, hup, if_true, if_false, Nat.not_le.mpr hcomp]
  by_cases hL : L = "" <;> simp [locationOr, hloc, hL]

/-- C1 witness: the spec's mocked scenario evaluates to exactly the pair. -/
theorem claim1_upload_success_pair_witness :
    (upload clientFix oracleFix "a.png" 10 []).1 =
      Except.ok { githubLink := "https://x/assets/1", awsLink := "https://s3/y" } :=
  claim1_upload_success_pair clientFix oracleFix "a.png" 10 [] "https://s3/y"
    (by decide) (by decide) (by decide) (by decide) (by decide)

/-- Responses where the multipart POST is accepted (status 201) but carries
no `Location` header. -/
def oracleNoLocation : Oracle := { oracleFix with uploadLocation := none }

/-- C10: an accepted multipart status (201 or 204) with no `Location`
header still succeeds, returning `awsLink = ""`; the missing header is not
an error. -/
theorem claim10_missing_location_ok (c : GitHub) (o : Oracle) (name : String)
    (size : Nat) (fb : List Nat)
    (hrepo : repoStepOk c o) (hpol : o.policyStatus = 201)
    (hup : o.uploadStatus ∈ [201, 204]) (hloc : o.uploadLocation = none)
    (hcomp : o.completionStatus < 400) :
    (upload c o name size fb).1 =
      Except.ok { githubLink := o.policyJson.asset.href, awsLink := "" } := by
  have h4 : ¬ 400 ≤ o.uploadStatus := by
    rcases List.mem_cons.mp hup with h | h
    · omega
    · simp only [List.mem_singleton] at h; omega
  rw [upload_run c o name size fb hrepo]
  unfold uploadOutcome
  simp [hpol, h4, hup, Nat.not_le.mpr hcomp, locationOr, hloc]

/-- C10 witness: a concrete accepted upload without a `Location` header
succeeds with the empty `awsLink`. -/
theorem claim10_missing_location_ok_witness :
    (upload clientFix oracleNoLocation "a.png" 10 []).1 =
      Except.ok { githubLink := "https://x/assets/1", awsLink := "" } :=
  claim10_missing_location_ok clientFix oracleNoLocation "a.png" 10 []
    (by decide) (by decide) (by decide) (by decide) (by decide)

deriving instance DecidableEq for Except

/-- Responses where the policy endpoint answers 401 (e.g. a rejected
session): `requestUrl` throws before the `status != 201` check runs. -/
def oracleAuthFail : Oracle := { oracleFix with policyStatus := 401 }

/-- Responses where the policy endpoint answers 200 (a non-201 status that
does not make `requestUrl` throw). -/
def oraclePolicy200 : Oracle := { oracleFix with policyStatus := 200 }

/-- C3 counterexample: with the policy endpoint answering 401 (a status
other than 201), `upload` fails with the generic policy failure — the
session-expired path (notice plus its throw) is never reached, so the
failure is not of the session-expired class. -/
theorem claim3_counterexample_status401 :
    (upload clientFix oracleAuthFail "a.png" 10 []).1 =
      Except.error GPError.policyFailed ∧
    GPError.policyFailed ≠ GPError.sessionExpired := by
  constructor
  · decide
  · decide

/-- C3 amended: when the policy request completes with a status other than
201 that is below 400, `upload` fails with the session-expired failure; for
statuses of 400 and above the request helper throws first and the failure
is the generic policy failure.  In both cases no multipart POST and no
completion PUT are issued. -/
theorem claim3_amended_policy_rejection (c : GitHub) (o : Oracle)
    (name : String) (size : Nat) (fb : List Nat)
    (hrepo : repoStepOk c o) (hpol : o.policyStatus ≠ 201) :
    ((o.policyStatus < 400 →
        (upload c o name size fb).1 = Except.error GPError.sessionExpired) ∧
      (400 ≤ o.policyStatus →
        (upload c o name size fb).1 = Except.error GPError.policyFailed)) ∧
    NetEvent.multipartPost ∉ (upload c o name size fb).2.2 ∧
    NetEvent.completionPut ∉ (upload c o name size fb).2.2 := by
  rw [upload_run c o name size fb hrepo]
  have htail : uploadTail o = [] := by
    unfold uploadTail
    by_cases h4 : 400 ≤ o.policyStatus <;> simp [h4, hpol]
  refine ⟨⟨fun hlt => ?_, fun hge => ?_⟩, ?_, ?_⟩
  · unfold uploadOutcome
    simp [Nat.not_le.mpr hlt, hpol]
  · unfold uploadOutcome
    simp [hge]
  · simp [htail, multipartPost_not_mem_repoEvents]
  · simp [htail, completionPut_not_mem_repoEvents]

/-- C3 amended witness: a concrete 200 policy response yields the
session-expired failure. -/
theorem claim3_amended_policy_rejection_witness :
    (upload clientFix oraclePolicy200 "a.png" 10 []).1 =
      Except.error GPError.sessionExpired :=
  (claim3_amended_policy_rejection clientFix oraclePolicy200 "a.png" 10 []
    (by decide) (by decide)).1.1 (by decide)

/-- Responses where the multipart POST answers 500: `requestUrl` throws
before the `[201, 204].includes` check runs. -/
def oracleUpload500 : Oracle := { oracleFix with uploadStatus := 500 }

/-- Responses where the multipart POST answers 302 (outside `{201, 204}`
but below 400). -/
def oracleUpload302 : Oracle := { oracleFix with uploadStatus := 302 }

/-- C4 counterexample: with the multipart POST answering 500 (outside
`{201, 204}`), `upload` fails with the generic request failure that does
not carry the status — not with the `"Upload failed with status"` error. -/
theorem claim4_counterexample_status500 :
    (upload clientFix oracleUpload500 "a.png" 10 []).1 =
      Except.error GPError.uploadRequestFailed ∧
    GPError.uploadRequestFailed ≠ GPError.uploadFailed 500 := by
  constructor
  · decide
  · decide

/-- C4 amended: when the multipart POST completes with a status outside
`{201, 204}` that is below 400, `upload` fails with the upload-failed error
carrying that status; for statuses of 400 and above the request helper
throws first and the failure is a generic one without the status.  In both
cases the completion PUT is not issued. -/
theorem claim4_amended_upload_rejection (c : GitHub) (o : Oracle)
    (name : String) (size : Nat) (fb : List Nat)
    (hrepo : repoStepOk c o) (hpol : o.policyStatus = 201)
    (hst : o.uploadStatus ∉ [201, 204]) :
    ((o.uploadStatus < 400 →
        (upload c o name size fb).1 =
          Except.error (GPError.uploadFailed o.uploadStatus)) ∧
      (400 ≤ o.uploadStatus →
        (upload c o name size fb).1 = Except.error GPError.uploadRequestFailed)) ∧
    NetEvent.completionPut ∉ (upload c o name size fb).2.2 := by
  rw [upload_run c o name size fb hrepo]
  have htail : NetEvent.completionPut ∉ uploadTail o := by
    unfold uploadTail
    by_cases h4 : 400 ≤ o.uploadStatus <;> simp [h4, hpol, hst]
  refine ⟨⟨fun hlt => ?_, fun hge => ?_⟩, ?_⟩
  · unfold uploadOutcome
    simp [hpol, Nat.not_le.mpr hlt, hst]
  · unfold uploadOutcome
    simp [hpol, hge]
  · simp [htail, completionPut_not_mem_repoEvents]

/-- C4 amended witness: a concrete 302 multipart response fails with the
upload-failed error carrying 302. -/
theorem claim4_amended_upload_rejection_witness :
    (upload clientFix oracleUpload302 "a.png" 10 []).1 =
      Except.error (GPError.uploadFailed 302) :=
  (claim4_amended_upload_rejection clientFix oracleUpload302 "a.png" 10 []
    (by decide) (by decide) (by decide)).1.1 (by decide)

/-- Metadata responses whose JSON carries `id: 0`. -/
def oracleIdZero : Oracle := { oracleFix with repoJsonId := some 0 }

/-- A reachable client state with the numeric id `0` cached: the state of
`clientOther` after one resolution against `oracleIdZero`. -/
def clientCachedZero : GitHub := (getRepoId clientOther oracleIdZero).2.1

/-- C5 counterexample: the numeric id `0` is cached (reached by resolving
against metadata with `id: 0`), yet a later resolution issues another
metadata request and returns the endpoint's new value instead of the cached
one — `if (this.repoId)` treats the cached `0` as falsy. -/
theorem claim5_counterexample_cached_zero :
    clientCachedZero.repoId = some 0 ∧
    (getRepoId clientCachedZero oracleFix).2.2 = [NetEvent.repoGet] ∧
    (getRepoId clientCachedZero oracleFix).1 = Except.ok (some 5) := by
  refine ⟨by decide, by decide, by decide⟩

/-- C5 amended: once a nonzero numeric id is cached, every later resolution
returns the identical cached value with no network request and leaves the
state unchanged; and a client constructed for the default repository
`cli/cli` has the id `212613049` pre-known, so resolution on it never
issues a metadata request. -/
theorem claim5_amended_idempotent_resolution (c : GitHub) (o : Oracle)
    (n : Nat) (s : String) (hc : c.repoId = some n) (hn : n ≠ 0) :
    getRepoId c o = (Except.ok (some n), c, []) ∧
    (GitHub.make s "cli/cli").repoId = some 212613049 ∧
    getRepoId (GitHub.make s "cli/cli") o =
      (Except.ok (some 212613049), GitHub.make s "cli/cli", []) := by
  have hT : repoIdTruthy c = true := (repoIdTruthy_iff c).mpr ⟨n, hc, hn⟩
  have hmk : (GitHub.make s "cli/cli").repoId = some 212613049 := by
    unfold GitHub.make; simp
  have hTmk : repoIdTruthy (GitHub.make s "cli/cli") = true :=
    (repoIdTruthy_iff _).mpr ⟨212613049, hmk, by omega⟩
  refine ⟨?_, hmk, ?_⟩
  · unfold getRepoId; simp [hT, hc]
  · unfold getRepoId; simp [hTmk, hmk]

/-- C5 amended witness: a client with the nonzero id 7 cached resolves to
it without network traffic, and so does the default-repo client. -/
theorem claim5_amended_idempotent_resolution_witness :
    getRepoId { repo := "x/y", repoId := some 7, userSession := "s" } oracleFix =
      (Except.ok (some 7), { repo := "x/y", repoId := some 7, userSession := "s" }, []) ∧
    (GitHub.make "s" "cli/cli").repoId = some 212613049 ∧
    getRepoId (GitHub.make "s" "cli/cli") oracleFix =
      (Except.ok (some 212613049), GitHub.make "s" "cli/cli", []) :=
  claim5_amended_idempotent_resolution
    { repo := "x/y", repoId := some 7, userSession := "s" } oracleFix 7 "s"
    (by decide) (by decide)

/-- Metadata responses whose JSON lacks the `id` field. -/
def oracleNoId : Oracle := { oracleFix with repoJsonId := none }

/-- C8 counterexample: when the metadata endpoint succeeds but its JSON has
no `id` field, resolution completes without any error (caching the absent
value), and the whole upload later fails with the `TypeError` raised while
building the policy form — not with the repo-resolution failure. -/
theorem claim8_counterexample_absent_id :
    (getRepoId clientOther oracleNoId).1 = Except.ok none ∧
    (getRepoId clientOther oracleNoId).2.1.repoId = none ∧
    (upload clientOther oracleNoId "a.png" 10 []).1 =
      Except.error GPError.typeErrorUndefinedRepoId ∧
    GPError.typeErrorUndefinedRepoId ≠ GPError.repoResolution := by
  refine ⟨by decide, by decide, by decide, by decide⟩

/-- C8 amended: with no truthy cached id, a failing metadata request makes
resolution fail with the repo-resolution error; but an absent `id` field is
not detected — resolution returns without error, the absent value is
cached, and the failure surfaces later as a `TypeError` while the policy
request body is built. -/
theorem claim8_amended_resolution_failure (c : GitHub) (o : Oracle)
    (name : String) (size : Nat) (fb : List Nat)
    (hT : repoIdTruthy c = false) :
    (400 ≤ o.repoStatus →
      (getRepoId c o).1 = Except.error GPError.repoResolution) ∧
    (o.repoStatus < 400 → o.repoJsonId = none →
      (getRepoId c o).1 = Except.ok none ∧
      (upload c o name size fb).1 = Except.error GPError.typeErrorUndefinedRepoId) := by
  constructor
  · intro hge
    unfold getRepoId
    simp [hT, hge]
  · intro hlt hid
    constructor
    · unfold getRepoId
      simp [hT, Nat.not_le.mpr hlt, hid]
    · unfold upload getPolicy getRepoId
      simp [hT, Nat.not_le.mpr hlt, hid]

/-- C8 amended witness: concrete runs for both halves — a 404 metadata
response gives the repo-resolution error, and a 200 response without `id`
ends in the later type error. -/
theorem claim8_amended_resolution_failure_witness :
    (getRepoId clientOther { oracleFix with repoStatus := 404 }).1 =
      Except.error GPError.repoResolution ∧
    (upload clientOther oracleNoId "a.png" 10 []).1 =
      Except.error GPError.typeErrorUndefinedRepoId := by
  constructor
  · exact (claim8_amended_resolution_failure clientOther
      { oracleFix with repoStatus := 404 } "a.png" 10 [] (by decide)).1 (by decide)
  · exact ((claim8_amended_resolution_failure clientOther oracleNoId
      "a.png" 10 [] (by decide)).2 (by decide) (by decide)).2

/-- C6: in every upload run whose repo-id step goes through, the policy
request body issued consists of exactly the four fields `repository_id`,
`name`, `size`, `content_type` in that order, with the content type derived
from the file name's extension via the static lookup; and any policy
request in the trace has exactly that body.  The static lookup maps
`"a.png"` to `image/png` and an unknown extension to the
`application/octet-stream` fallback. -/
theorem claim6_policy_body_content_type (c : GitHub) (o : Oracle)
    (name : String) (size : Nat) (fb : List Nat) (hrepo : repoStepOk c o) :
    (NetEvent.policyPost (policyBody (ridOf c o) name size (contentTypeFor name)) ∈
        (upload c o name size fb).2.2 ∧
      ∀ body, NetEvent.policyPost body ∈ (upload c o name size fb).2.2 →
        body = policyBody (ridOf c o) name size (contentTypeFor name)) ∧
    contentTypeFor "a.png" = "image/png" ∧
    contentTypeFor "a.nosuchext" = "application/octet-stream" := by
  rw [upload_run c o name size fb hrepo]
  refine ⟨⟨?_, ?_⟩, by decide, by decide⟩
  · simp
  · intro body hmem
    simp only [List.mem_append] at hmem
    rcases hmem with (hmem | hmem) | hmem
    · exact absurd hmem (policyPost_not_mem_repoEvents c o body)
    · simp only [List.mem_singleton, NetEvent.policyPost.injEq] at hmem
      exact hmem
    · exact absurd hmem (policyPost_not_mem_uploadTail o body)

/-- C6 witness: the default-repo client uploading `a.png` issues the policy
request with exactly these four fields and `content_type = image/png`. -/
theorem claim6_policy_body_content_type_witness :
    NetEvent.policyPost
        [("repository_id", "212613049"), ("name", "a.png"), ("size", "10"),
         ("content_type", "image/png")] ∈
      (upload clientFix oracleFix "a.png" 10 []).2.2 :=
  (claim6_policy_body_content_type clientFix oracleFix "a.png" 10 []
    (by decide)).1.1

/-- C9: every upload call leaves the client unchanged except possibly the
cached repository id — `repo` and `userSession` are preserved and the state
has no policy field to persist — and each call whose repo-id step goes
through issues exactly one policy request of its own, so a fresh policy is
fetched per call and never reused across calls. -/
theorem claim9_fresh_policy_only_repoId_survives (c : GitHub) (o : Oracle)
    (name : String) (size : Nat) (fb : List Nat) :
    ((upload c o name size fb).2.1.repo = c.repo ∧
      (upload c o name size fb).2.1.userSession = c.userSession) ∧
    (repoStepOk c o →
      (upload c o name size fb).2.2.countP isPolicyPost = 1) := by
  constructor
  · unfold upload getPolicy getRepoId
    by_cases hT : repoIdTruthy c = true <;>
      simp only [hT, Bool.false_eq_true, if_true, if_false] <;>
      split_ifs <;>
      cases h : c.repoId <;>
      cases hj : o.repoJsonId <;>
      simp_all
  · intro hrepo
    rw [upload_run c o name size fb hrepo]
    simp [List.countP_append, countP_policyPost_repoEvents,
      countP_policyPost_uploadTail, isPolicyPost]

/-- C9 witness: a concrete run issues exactly one policy request. -/
theorem claim9_fresh_policy_only_repoId_survives_witness :
    (upload clientFix oracleFix "a.png" 10 []).2.2.countP isPolicyPost = 1 :=
  (claim9_fresh_policy_only_repoId_survives clientFix oracleFix "a.png" 10 []).2
    (by decide)

/-- Plugin settings with the delete-local-image toggle enabled. -/
def settingsDelete : GitPasteSettings :=
  { githubSession := "tok", deleteLocalImage := true, showNotices := true
    enableLogging := false, logFilePath := "uploaded-images.md" }

/-- Responses whose policy endpoint answers 500, so every upload fails. -/
def oraclePolicy500 : Oracle := { oracleFix with policyStatus := 500 }

/-- An editor context with an active markdown view whose line holds the
local embed. -/
def editorFix : EditorCtx := { hasMarkdownView := true, lineMatchesLocalLink := true }

/-- C7: evidence of the divergence.  When a pasted image's upload fails
(policy endpoint answers 500) and the delete-local-image setting is on, the
vault-create handler still trashes the local file: `handleImagePaste`
swallows the upload error, so the handler cannot tell failure from
success.  The run shown performs no retry (one policy request, no multipart
POST) and leaves the note text untouched (no editor events), yet ends in
`trashFile` — contradicting the claim that a failed upload leaves the
local file untouched. -/
theorem claim7_failed_upload_still_trashes :
    (upload (GitHub.make settingsDelete.githubSession "cli/cli")
        oraclePolicy500 "a.png" 10 []).1 = Except.error GPError.policyFailed ∧
    onVaultCreate settingsDelete oraclePolicy500 editorFix "a.png" "png" 10 [] =
      [PluginEvent.net (NetEvent.policyPost
          [("repository_id", "212613049"), ("name", "a.png"), ("size", "10"),
           ("content_type", "image/png")]),
        PluginEvent.errorNotice,
        PluginEvent.trashFile,
        PluginEvent.notice "Local Image is trashed"] ∧
    PluginEvent.trashFile ∈
      onVaultCreate settingsDelete oraclePolicy500 editorFix "a.png" "png" 10 [] ∧
    PluginEvent.editorSetLine ∉
      onVaultCreate settingsDelete oraclePolicy500 editorFix "a.png" "png" 10 [] ∧
    PluginEvent.editorInsert ∉
      onVaultCreate settingsDelete oraclePolicy500 editorFix "a.png" "png" 10 [] := by
  refine ⟨by decide, by decide, by decide, by decide, by decide⟩

theorem encodeStr_crlf : encodeStr "\r\n" = crlf := by decide

theorem encodeStr_quote_crlf_crlf :
    encodeStr "\"\r\n\r\n" = encodeStr "\"" ++ crlf ++ crlf := by decide

theorem encodeStr_quote_crlf :
    encodeStr "\"\r\n" = encodeStr "\"" ++ crlf := by decide

theorem encodeStr_crlf_crlf :
    encodeStr "\r\n\r\n" = crlf ++ crlf := by decide

theorem encodeStr_crlf_dashes :
    encodeStr "\r\n--" = crlf ++ encodeStr "--" := by decide

theorem encodeStr_dashes_crlf :
    encodeStr "--\r\n" = encodeStr "--" ++ crlf := by decide

theorem multipartBody_nil (boundary name contentType : String)
    (fileBytes : List Nat) :
    multipartBody boundary [] name contentType fileBytes =
      encodeStr ("--" ++ boundary ++ "\r\n" ++
        "Content-Disposition: form-data; name=\"file\"; filename=\"" ++ name ++ "\"\r\n" ++
        "Content-Type: " ++ contentType ++ "\r\n\r\n")
      ++ fileBytes
      ++ encodeStr ("\r\n--" ++ boundary ++ "--\r\n") := by
  simp [multipartBody, multipartParts, partBytes]

theorem multipartBody_cons (boundary : String) (kv : String × String)
    (rest : List (String × String)) (name contentType : String)
    (fileBytes : List Nat) :
    multipartBody boundary (kv :: rest) name contentType fileBytes =
      encodeStr ("--" ++ boundary ++ "\r\n" ++
        "Content-Disposition: form-data; name=\"" ++ kv.1 ++ "\"\r\n\r\n" ++
        (kv.2 ++ "\r\n"))
      ++ multipartBody boundary rest name contentType fileBytes := by
  simp [multipartBody, multipartParts, partBytes]

theorem specMultipartBody_cons (boundary : String) (kv : String × String)
    (rest : List (String × String)) (name contentType : String)
    (fileBytes : List Nat) :
    specMultipartBody boundary (kv :: rest) name contentType fileBytes =
      specFieldPart boundary kv.1 kv.2
      ++ specMultipartBody boundary rest name contentType fileBytes := by
  simp [specMultipartBody, List.append_assoc]

/-- C2: the multipart body the axios variant assembles equals, byte for
byte, the documented wire format: one part per policy form field in the
mapping's order, then the file part embedding the raw bytes unchanged,
then the closing delimiter — for every boundary, field mapping (including
empty values), file name, content type, and binary content (including null
bytes and bytes resembling the boundary). -/
theorem claim2_multipart_wire_format (boundary : String)
    (form : List (String × String)) (name contentType : String)
    (fileBytes : List Nat) :
    multipartBody boundary form name contentType fileBytes =
      specMultipartBody boundary form name contentType fileBytes := by
  induction form with
  | nil =>
    rw [multipartBody_nil]
    simp only [specMultipartBody, List.map_nil, List.flatten_nil, List.nil_append,
      specFilePart, specClose, encodeStr_append, encodeStr_crlf,
      encodeStr_quote_crlf, encodeStr_crlf_crlf, encodeStr_crlf_dashes,
      encodeStr_dashes_crlf, List.append_assoc]
  | cons kv rest ih =>
    rw [multipartBody_cons, specMultipartBody_cons, ih]
    simp only [specFieldPart, encodeStr_append, encodeStr_crlf,
      encodeStr_quote_crlf_crlf, List.append_assoc]
